import Mathlib

/-!
Shallow embedding of the pediatric-appointment Flask application (`src/app.py`)
for verification of its specification.  Pure request handlers are modelled as
Lean functions from the request inputs, the relevant session contents and the
outcomes of external completion-service calls to an explicit description of
the HTTP response and of the database effect.  Python truthiness, Python dict
`get` with defaults, JSON values (including `null` and non-string values) and
SQLite parameter binding are modelled explicitly.
-/

namespace PedsApp

/-- A calendar date as Python's `datetime.date` exposes it: year, month, day. -/
structure PyDate where
  year : Int
  month : Int
  day : Int
deriving DecidableEq, Repr

/-- Python tuple comparison `(a, b) < (c, d)`: lexicographic. -/
def pairLt (a b : Int × Int) : Bool :=
  a.1 < b.1 || (a.1 == b.1 && a.2 < b.2)

/-- Age computation used at both signup (src/app.py line 780) and appointment
creation (line 500):
`today.year - dob.year - ((today.month, today.day) < (dob.month, dob.day))`,
with the boolean coerced to 0/1. -/
def computeAge (dob today : PyDate) : Int :=
  today.year - dob.year -
    (if pairLt (today.month, today.day) (dob.month, dob.day) then 1 else 0)

/-- Python `str.lower()` / SQLite `LOWER` restricted to ASCII letters, as a
character-by-character map (kernel-reducible, unlike `String.toLower`). -/
def lowerStr (s : String) : String :=
  ⟨s.data.map Char.toLower⟩

/-- Python `str.strip()`: drop leading and trailing whitespace. -/
def pyStrip (s : String) : String :=
  ⟨((s.data.dropWhile Char.isWhitespace).reverse.dropWhile Char.isWhitespace).reverse⟩

/-- Python `sub in s`: substring containment. -/
def strContains (s sub : String) : Bool :=
  s.data.tails.any fun t => sub.data.isPrefixOf t

/-- Python truthiness of a string: non-empty. -/
def truthyStr (s : String) : Bool := s ≠ ""

/-- Python truthiness of an optional string (`None` and `""` are falsy). -/
def truthyOptStr : Option String → Bool
  | none => false
  | some s => s ≠ ""

/-- Python truthiness of an integer: non-zero. -/
def truthyInt (n : Int) : Bool := n ≠ 0

/-- Python truthiness of an optional integer (`None` and `0` are falsy). -/
def truthyOptInt : Option Int → Bool
  | none => false
  | some n => n ≠ 0

/-- One conversation turn: `{"role": ..., "content": ...}`. -/
structure Msg where
  role : String
  content : String
deriving DecidableEq, Repr

/-- The `session['appointment_data']` dict created by `appointment_page`
(src/app.py lines 517-526). -/
structure ApptData where
  id : Option Int
  date : String
  time : String
  age_years : Int
  height : String
  weight : String
  patient_name : String
  gender : Option String
deriving DecidableEq, Repr

/-- A JSON value as `json.loads` returns it (Python: None, bool, int, str,
list, dict).  Float payloads are not distinguished from ints here; none of
the verified properties depend on that distinction. -/
inductive JValue where
  | jnull
  | jbool (b : Bool)
  | jnum (n : Int)
  | jstr (s : String)
  | jarr (elems : List JValue)
  | jobj (fields : List (String × JValue))

/-- Python `dict.get(key, default)` for a JSON object.  In a dict built by
`json.loads` a repeated key keeps its last occurrence. -/
def dictGet (fields : List (String × JValue)) (key : String) (dflt : JValue) : JValue :=
  match (fields.filter (fun p => p.1 == key)).getLast? with
  | some p => p.2
  | none => dflt

/-- Python `v == s` for a JSON value `v` and a string `s`: true exactly when
`v` is that string (comparison of a non-string value with a string is False). -/
def jvEqStr : JValue → String → Bool
  | .jstr t, s => t == s
  | _, _ => false

/-- An SQLite cell as the `sqlite3` module stores bound Python values:
`None` → NULL, `str` → TEXT, `int`/`bool` → INTEGER. -/
inductive Cell where
  | cnull
  | ctext (s : String)
  | cint (n : Int)
deriving DecidableEq, Repr

/-- Binding a Python value as an SQLite parameter: `None`, strings, ints and
bools are supported; lists and dicts raise `sqlite3.InterfaceError` (`none`). -/
def pythonToCell : JValue → Option Cell
  | .jnull => some .cnull
  | .jstr s => some (.ctext s)
  | .jnum n => some (.cint n)
  | .jbool b => some (.cint (if b then 1 else 0))
  | .jarr _ => none
  | .jobj _ => none

/-- The fifteen columns written by the `UPDATE appointments SET ...` statement
of `extract_diet` (src/app.py lines 308-344). -/
structure AppointmentUpdate where
  height : Cell
  weight : Cell
  growth_percentile_info : Cell
  diet_info : Cell
  toileting_info : Cell
  sleep_info : Cell
  development_behavior_info : Cell
  social_info : Cell
  extracted_concerns : Cell
  diet_recommendations : Cell
  toileting_recommendations : Cell
  sleep_recommendations : Cell
  development_behavior_recommendations : Cell
  social_recommendations : Cell
  concerns_recommendations : Cell
deriving DecidableEq, Repr

/-- The session contents read by `extract_diet`. -/
structure ExtractSession where
  appointment_data : Option ApptData
  conversation_history : List Msg

/-- The HTTP response of `extract_diet`: 400 with an error message, 500 with
an error message, or 200 with `{"success": True, "data": data}`. -/
inductive ExtractResponse where
  | badRequest (error : String)
  | serverError (error : String)
  | success (data : JValue)

/-- Outcome of one `extract_diet` request: the response, the row update
committed to the appointments table (`none` = the row is unchanged), and
whether the growth-percentile completion call was issued. -/
structure ExtractOutcome where
  response : ExtractResponse
  dbWrite : Option AppointmentUpdate
  growthCalled : Bool

/-- Binding the fifteen parameters of the `UPDATE appointments SET ...`
statement: the growth narrative is always a string; each of the other
fourteen extracted values binds only if it is a supported Python type
(`pythonToCell`), otherwise `conn.execute` raises and nothing is written. -/
def bindCells (growth : String) (hc wc c1 c2 c3 c4 c5 c6 r1 r2 r3 r4 r5 r6 : Option Cell) :
    Option AppointmentUpdate :=
  Option.bind hc fun h =>
  Option.bind wc fun w =>
  Option.bind c1 fun d1 =>
  Option.bind c2 fun d2 =>
  Option.bind c3 fun d3 =>
  Option.bind c4 fun d4 =>
  Option.bind c5 fun d5 =>
  Option.bind c6 fun d6 =>
  Option.bind r1 fun e1 =>
  Option.bind r2 fun e2 =>
  Option.bind r3 fun e3 =>
  Option.bind r4 fun e4 =>
  Option.bind r5 fun e5 =>
  Option.bind r6 fun e6 =>
  some ⟨h, w, .ctext growth, d1, d2, d3, d4, d5, d6, e1, e2, e3, e4, e5, e6⟩

/-- The `POST /extract-diet` handler (src/app.py lines 200-354).

External effects are passed in as values: `api` is the outcome of the
structured-extraction completion call (`.error e` = the call raised, or the
response/content access raised, with `str(e) = e`); `parse` is the behavior of
`json.loads` on the stripped payload string; `growthApi` is the outcome of
the growth-percentile completion call, consulted only when that call is made.
Any exception escaping the outer `try` yields a 500 response and no database
write; an exception in the inner growth `try` only forces the sentinel. -/
def extract_diet (sess : ExtractSession) (api : Except String String)
    (parse : String → Except String JValue)
    (growthApi : Except String String) : ExtractOutcome :=
  match sess.appointment_data with
  | none => ⟨.badRequest "No active appointment", none, false⟩
  | some appt =>
    if !(truthyOptInt appt.id) || sess.conversation_history.isEmpty then
      ⟨.badRequest "No conversation data available", none, false⟩
    else
      match api with
      | .error e => ⟨.serverError e, none, false⟩
      | .ok content =>
        match parse (pyStrip content) with
        | .error e => ⟨.serverError e, none, false⟩
        | .ok data =>
          match data with
          | .jobj fields =>
            let patient_age := appt.age_years
            let patient_gender := appt.gender
            let extracted_height := dictGet fields "height" (.jstr "N/A")
            let extracted_weight := dictGet fields "weight" (.jstr "N/A")
            let callGrowth := !(jvEqStr extracted_height "N/A") &&
              !(jvEqStr extracted_weight "N/A") &&
              truthyInt patient_age && truthyOptStr patient_gender
            let growth_percentile_info :=
              if callGrowth then
                match growthApi with
                | .ok g => pyStrip g
                | .error _ => "N/A"
              else "N/A"
            let row? : Option AppointmentUpdate :=
              bindCells growth_percentile_info
                (pythonToCell extracted_height)
                (pythonToCell extracted_weight)
                (pythonToCell (dictGet fields "diet" (.jstr "")))
                (pythonToCell (dictGet fields "toileting" (.jstr "")))
                (pythonToCell (dictGet fields "sleep" (.jstr "")))
                (pythonToCell (dictGet fields "development_behavior" (.jstr "")))
                (pythonToCell (dictGet fields "social" (.jstr "")))
                (pythonToCell (dictGet fields "concerns" (.jstr "")))
                (pythonToCell (dictGet fields "diet_recommendations" (.jstr "None")))
                (pythonToCell (dictGet fields "toileting_recommendations" (.jstr "None")))
                (pythonToCell (dictGet fields "sleep_recommendations" (.jstr "None")))
                (pythonToCell (dictGet fields "development_behavior_recommendations" (.jstr "None")))
                (pythonToCell (dictGet fields "social_recommendations" (.jstr "None")))
                (pythonToCell (dictGet fields "concerns_recommendations" (.jstr "None")))
            match row? with
            | some row => ⟨.success data, some row, callGrowth⟩
            | none => ⟨.serverError "Error binding parameter", none, callGrowth⟩
          | _ => ⟨.serverError "object has no attribute get", none, false⟩

/-- Outcome of the chat completion call made by `conversation_page` (src/app.py
lines 672-687), as the surrounding code distinguishes it: the call raised an
exception, the response had no choices, or it carried a message whose content
is `None` or a string. -/
inductive ChatApiResult where
  | raised (err : String)
  | emptyResponse
  | content (msg : Option String)
deriving DecidableEq, Repr

/-- The session contents read by the `POST /conversation` handler. -/
structure ConvSession where
  appointment_data : Option ApptData
  conversation_history : List Msg
deriving DecidableEq, Repr

/-- The HTTP response of `POST /conversation`: redirect to `/appointment` when
no appointment is active, 400 when the message is empty, 200 with the
assistant message, or 500 with both the raw error and a user-facing message. -/
inductive ConvResponse where
  | redirectAppointment
  | badRequest (error : String)
  | chat (message : String)
  | failure (error : String) (message : String)
deriving DecidableEq, Repr

/-- Outcome of one `POST /conversation` request: the resulting
`session['conversation_history']` and the response. -/
structure ConvOutcome where
  newHistory : List Msg
  response : ConvResponse
deriving DecidableEq, Repr

/-- The raised error text for an empty completion response (src/app.py line 682). -/
def emptyResponseError : String := "OpenAI API returned an empty response"

/-- The raised error text for a message with falsy content (src/app.py line 687). -/
def noContentError : String := "OpenAI API returned a message with no content"

/-- User-facing apology for rate-limit failures (src/app.py line 701). -/
def rateLimitMessage : String :=
  "I\x27m currently experiencing high demand. Please wait about 20 seconds and try again. Thank you for your patience!"

/-- User-facing apology for authentication failures (src/app.py line 703). -/
def authIssueMessage : String :=
  "There was an authentication issue. Please contact support if this persists."

/-- Generic user-facing apology (src/app.py line 706). -/
def genericFailureMessage : String :=
  "Sorry, I encountered an error processing your message. Please try again in a moment."

/-- The rate-limit test of src/app.py line 700:
`"rate_limit" in error_msg.lower() or "429" in error_msg`. -/
def indicatesRateLimit (errorMsg : String) : Bool :=
  strContains (lowerStr errorMsg) "rate_limit" || strContains errorMsg "429"

/-- The authentication test of src/app.py line 702:
`"api key" in error_msg.lower() or "authentication" in error_msg.lower()`. -/
def indicatesAuthProblem (errorMsg : String) : Bool :=
  strContains (lowerStr errorMsg) "api key" || strContains (lowerStr errorMsg) "authentication"

/-- The user-facing message chosen in the `except` branch of
`conversation_page` (src/app.py lines 696-706). -/
def apologyFor (errorMsg : String) : String :=
  if indicatesRateLimit errorMsg then rateLimitMessage
  else if indicatesAuthProblem errorMsg then authIssueMessage
  else genericFailureMessage

/-- The `POST /conversation` handler (src/app.py lines 536-711).

`api` is the outcome of the chat completion call.  The handler raises on an
empty response or falsy message content; every exception is caught by the one
`except` block, which classifies `str(e)` and returns a 500 response carrying
the raw error and the user-facing apology in separate JSON fields, without
touching the transcript.  On success the user and assistant turns are appended
to `session['conversation_history']`, in that order. -/
def conversation_post (sess : ConvSession) (user_message : String)
    (api : ChatApiResult) : ConvOutcome :=
  match sess.appointment_data with
  | none => ⟨sess.conversation_history, .redirectAppointment⟩
  | some _ =>
    if !(truthyStr user_message) then
      ⟨sess.conversation_history, .badRequest "No message provided"⟩
    else
      match api with
      | .raised e => ⟨sess.conversation_history, .failure e (apologyFor e)⟩
      | .emptyResponse =>
        ⟨sess.conversation_history, .failure emptyResponseError (apologyFor emptyResponseError)⟩
      | .content m =>
        match m with
        | none =>
          ⟨sess.conversation_history, .failure noContentError (apologyFor noContentError)⟩
        | some s =>
          if !(truthyStr s) then
            ⟨sess.conversation_history, .failure noContentError (apologyFor noContentError)⟩
          else
            ⟨sess.conversation_history ++ [⟨"user", user_message⟩, ⟨"assistant", s⟩], .chat s⟩

/-- The fields of the signup form as `request.form.get` delivers them: a
missing field is `None` for the fields read without a default
(username, password, role) and `""` for the rest. -/
structure SignupForm where
  first_name : String
  last_name : String
  username : Option String
  password : Option String
  role : Option String
  admin_group : String
  patient_group : String
  date_of_birth : String
  gender : String
deriving DecidableEq, Repr

/-- A row of the `users` table as `signup` inserts it (src/app.py lines
808-813); the password hash is omitted, no verified property mentions it. -/
structure UserRow where
  username : String
  role : String
  admin_group : Option String
  patient_group : Option String
  name : String
  date_of_birth : String
  gender : String
deriving DecidableEq, Repr

/-- The HTTP response of `POST /signup`: the form re-rendered with an error
message, or a redirect to the main page after a successful insert. -/
inductive SignupResponse where
  | renderError (message : String)
  | redirectMain
deriving DecidableEq, Repr

/-- Outcome of one `POST /signup` request: the row inserted into the `users`
table (`none` = no insert) and the response. -/
structure SignupOutcome where
  inserted : Option UserRow
  response : SignupResponse
deriving DecidableEq, Repr

/-- Rejection message for patients older than 18 (src/app.py line 786). -/
def pediatricOnlyMessage : String :=
  "This service is only for pediatric appointments (18 years and under). Please contact your healthcare provider for adult services."

/-- The `POST /signup` handler (src/app.py lines 751-839).

`existing` is the set of usernames already in the `users` table, for the
case-insensitive `LOWER(username) = LOWER(?)` duplicate check; `parseDate` is
the behavior of `datetime.strptime(date_of_birth, "%Y-%m-%d")` (`none` =
`ValueError`); `today` is `date.today()`. -/
def signup (existing : List String) (form : SignupForm)
    (parseDate : String → Option PyDate) (today : PyDate) : SignupOutcome :=
  let first_name := pyStrip form.first_name
  let last_name := pyStrip form.last_name
  let admin_group := pyStrip form.admin_group
  let patient_group := pyStrip form.patient_group
  let date_of_birth := pyStrip form.date_of_birth
  let gender := pyStrip form.gender
  let full_name := pyStrip (first_name ++ " " ++ last_name)
  if !(truthyStr first_name) || !(truthyStr last_name) || !(truthyOptStr form.username) ||
      !(truthyOptStr form.password) || !(truthyOptStr form.role) ||
      !(truthyStr date_of_birth) || !(truthyStr gender) then
    ⟨none, .renderError "Please fill in all required fields"⟩
  else if gender ≠ "male" ∧ gender ≠ "female" then
    ⟨none, .renderError "Please select a valid gender"⟩
  else
    match parseDate date_of_birth with
    | none => ⟨none, .renderError "Please enter a valid date of birth"⟩
    | some dob =>
      let age := computeAge dob today
      if age < 0 then
        ⟨none, .renderError "Date of birth cannot be in the future"⟩
      else if form.role == some "patient" && age > 18 then
        ⟨none, .renderError pediatricOnlyMessage⟩
      else if form.role == some "admin" && !(truthyStr admin_group) then
        ⟨none, .renderError "Please enter the name of the group you are admining"⟩
      else
        let username := form.username.getD ""
        if existing.any (fun u => lowerStr u == lowerStr username) then
          ⟨none, .renderError "Username already exists. Please choose a different username."⟩
        else
          ⟨some ⟨username, form.role.getD "",
            if form.role == some "admin" then some admin_group else none,
            if form.role == some "patient" then some patient_group else none,
            full_name, date_of_birth, gender⟩, .redirectMain⟩

/-- The columns of a `users` row consulted by `reports_page`. -/
structure DbUser where
  id : Int
  patient_group : Option String
deriving DecidableEq, Repr

/-- The session values consulted by `reports_page`. -/
structure SessionAuth where
  user_id : Option Int
  role : Option String
  admin_group : Option String
deriving DecidableEq, Repr

/-- The HTTP response of `GET /reports[/<view_user_id>]`: a redirect to the
login page, a redirect to `/reports` or `/people` with an access-denied
message, or the rendered reports page showing the appointments of
`shown_user_id`. -/
inductive ReportsResponse where
  | redirectLogin (message : String)
  | redirectReports (message : String)
  | redirectPeople (message : String)
  | showReports (shown_user_id : Int) (viewing_other_user : Bool)
deriving DecidableEq, Repr

/-- The `/reports` handler (src/app.py lines 149-198).

`users` models the `users` table (the `SELECT patient_group FROM users WHERE
id = ?` lookup); the rendered page lists `SELECT * FROM appointments WHERE
user_id = ?`, so the outcome records whose appointments are shown.  Note the
Python truthiness test `if view_user_id:` on line 161: an explicit id of 0 is
treated like no id at all. -/
def reports_page (users : List DbUser) (sess : SessionAuth)
    (view_user_id : Option Int) : ReportsResponse :=
  match sess.user_id with
  | none => .redirectLogin "Please log in to view your reports."
  | some current_user_id =>
    if truthyOptInt view_user_id then
      match view_user_id with
      | none => .showReports current_user_id false
      | some vid =>
        if sess.role ≠ some "admin" then
          .redirectReports "Access denied. Admin access required."
        else
          match users.find? (fun u => u.id == vid) with
          | none => .redirectPeople "Access denied. User not in your admin group."
          | some target =>
            if target.patient_group ≠ sess.admin_group then
              .redirectPeople "Access denied. User not in your admin group."
            else
              .showReports vid true
    else
      .showReports current_user_id false

/-- Whether an `extract_diet` response is the 200 success response. -/
def ExtractResponse.isSuccess : ExtractResponse → Bool
  | .success _ => true
  | _ => false

/-- Whether a `/reports` response is a redirect carrying an access-denied
message. -/
def ReportsResponse.isAccessDenied : ReportsResponse → Bool
  | .redirectReports m => m == "Access denied. Admin access required."
  | .redirectPeople m => m == "Access denied. User not in your admin group."
  | _ => false

set_option maxHeartbeats 1600000 in
/-- If all fifteen parameters bound, the written row's growth column is the
computed growth narrative. -/
theorem bindCells_growth_of_eq_some {growth : String}
    {hc wc c1 c2 c3 c4 c5 c6 r1 r2 r3 r4 r5 r6 : Option Cell} {row : AppointmentUpdate}
    (h : bindCells growth hc wc c1 c2 c3 c4 c5 c6 r1 r2 r3 r4 r5 r6 = some row) :
    row.growth_percentile_info = .ctext growth := by
  rcases hc with _ | a1
  · simp only [bindCells, Option.none_bind, Option.some_bind] at h
    exact Option.noConfusion h
  rcases wc with _ | a2
  · simp only [bindCells, Option.none_bind, Option.some_bind] at h
    exact Option.noConfusion h
  rcases c1 with _ | a3
  · simp only [bindCells, Option.none_bind, Option.some_bind] at h
    exact Option.noConfusion h
  rcases c2 with _ | a4
  · simp only [bindCells, Option.none_bind, Option.some_bind] at h
    exact Option.noConfusion h
  rcases c3 with _ | a5
  · simp only [bindCells, Option.none_bind, Option.some_bind] at h
    exact Option.noConfusion h
  rcases c4 with _ | a6
  · simp only [bindCells, Option.none_bind, Option.some_bind] at h
    exact Option.noConfusion h
  rcases c5 with _ | a7
  · simp only [bindCells, Option.none_bind, Option.some_bind] at h
    exact Option.noConfusion h
  rcases c6 with _ | a8
  · simp only [bindCells, Option.none_bind, Option.some_bind] at h
    exact Option.noConfusion h
  rcases r1 with _ | a9
  · simp only [bindCells, Option.none_bind, Option.some_bind] at h
    exact Option.noConfusion h
  rcases r2 with _ | a10
  · simp only [bindCells, Option.none_bind, Option.some_bind] at h
    exact Option.noConfusion h
  rcases r3 with _ | a11
  · simp only [bindCells, Option.none_bind, Option.some_bind] at h
    exact Option.noConfusion h
  rcases r4 with _ | a12
  · simp only [bindCells, Option.none_bind, Option.some_bind] at h
    exact Option.noConfusion h
  rcases r5 with _ | a13
  · simp only [bindCells, Option.none_bind, Option.some_bind] at h
    exact Option.noConfusion h
  rcases r6 with _ | a14
  · simp only [bindCells, Option.none_bind, Option.some_bind] at h
    exact Option.noConfusion h
  simp only [bindCells, Option.some_bind, Option.some.injEq] at h
  subst h
  rfl

/- ------------------------------------------------------------------ -/
/- Theorems -/
/- ------------------------------------------------------------------ -/

/-- C8: the age computation maps date of birth 2010-06-15 to age 13 on
2024-06-14 and to age 14 on 2024-06-15, and in general equals the
calendar-year difference minus one exactly when the current (month, day)
precedes the birthday's (month, day). -/
theorem claim_C8_age_computation :
    computeAge ⟨2010, 6, 15⟩ ⟨2024, 6, 14⟩ = 13 ∧
    computeAge ⟨2010, 6, 15⟩ ⟨2024, 6, 15⟩ = 14 ∧
    ∀ dob today : PyDate,
      (computeAge dob today = today.year - dob.year - 1 ↔
        pairLt (today.month, today.day) (dob.month, dob.day) = true) := by
  refine ⟨by decide, by decide, ?_⟩
  intro dob today
  unfold computeAge
  cases hb : pairLt (today.month, today.day) (dob.month, dob.day)
  · simp only [hb, Bool.false_eq_true, if_false, iff_false]
    omega
  · simp only [hb, if_true, iff_true]

/-- C2: a conversation turn with a non-empty user message and a successful
completion call returning a non-empty assistant message appends exactly the
user turn followed by the assistant turn to the session transcript and
returns the assistant message; nothing else about the transcript changes. -/
theorem claim_C2_transcript_append
    (sess : ConvSession) (appt : ApptData) (hA : sess.appointment_data = some appt)
    (msg : String) (hm : msg ≠ "") (s : String) (hs : s ≠ "") :
    conversation_post sess msg (.content (some s)) =
      ⟨sess.conversation_history ++ [⟨"user", msg⟩, ⟨"assistant", s⟩], .chat s⟩ := by
  unfold conversation_post
  rw [hA]
  simp [truthyStr, hm, hs]

/-- Closed witness for C2 at a concrete session and message. -/
theorem claim_C2_transcript_append_witness :
    conversation_post ⟨some ⟨some 1, "2024-06-01", "10:00", 7, "N/A", "N/A", "Alice", some "female"⟩,
        [⟨"user", "hi"⟩, ⟨"assistant", "hello"⟩]⟩ "My day is good" (.content (some "Great to hear!")) =
      ⟨[⟨"user", "hi"⟩, ⟨"assistant", "hello"⟩, ⟨"user", "My day is good"⟩,
        ⟨"assistant", "Great to hear!"⟩], .chat "Great to hear!"⟩ :=
  claim_C2_transcript_append _ _ rfl _ (by decide) _ (by decide)

/-- C3: when the completion call fails or yields an empty or absent assistant
message, the transcript is unchanged and the caller receives a 500 response
carrying the raw error and, in a separate field, a deterministic apology
chosen by failure class: the rate-limit message when the error indicates
rate limiting, the authentication message when it indicates an API-key or
authentication problem (and not rate limiting), and a generic message
otherwise. -/
theorem claim_C3_failure_no_append
    (sess : ConvSession) (appt : ApptData) (hA : sess.appointment_data = some appt)
    (msg : String) (hm : msg ≠ "") (api : ChatApiResult) (e : String)
    (hfail : api = .raised e ∨ (api = .emptyResponse ∧ e = emptyResponseError) ∨
      (api = .content none ∧ e = noContentError) ∨
      (api = .content (some "") ∧ e = noContentError)) :
    conversation_post sess msg api = ⟨sess.conversation_history, .failure e (apologyFor e)⟩ ∧
    (indicatesRateLimit e = true → apologyFor e = rateLimitMessage) ∧
    (indicatesRateLimit e = false → indicatesAuthProblem e = true →
      apologyFor e = authIssueMessage) ∧
    (indicatesRateLimit e = false → indicatesAuthProblem e = false →
      apologyFor e = genericFailureMessage) := by
  refine ⟨?_, ?_, ?_, ?_⟩
  · unfold conversation_post
    rw [hA]
    rcases hfail with h | ⟨h, he⟩ | ⟨h, he⟩ | ⟨h, he⟩ <;> subst h <;>
      simp [truthyStr, hm] <;> subst he <;> simp
  · intro h; simp [apologyFor, h]
  · intro h1 h2; simp [apologyFor, h1, h2]
  · intro h1 h2; simp [apologyFor, h1, h2]

/-- Closed witness for C3: a rate-limited completion call leaves the
transcript unchanged and yields the rate-limit apology beside the raw error. -/
theorem claim_C3_failure_no_append_witness :
    conversation_post ⟨some ⟨some 1, "2024-06-01", "10:00", 7, "N/A", "N/A", "Alice", some "female"⟩,
        [⟨"user", "hi"⟩]⟩ "hello" (.raised "Error code: 429 - rate_limit_exceeded") =
      ⟨[⟨"user", "hi"⟩], .failure "Error code: 429 - rate_limit_exceeded"
        (apologyFor "Error code: 429 - rate_limit_exceeded")⟩ ∧
    apologyFor "Error code: 429 - rate_limit_exceeded" = rateLimitMessage :=
  ⟨(claim_C3_failure_no_append _ _ rfl _ (by decide) _ _ (Or.inl rfl)).1,
   (claim_C3_failure_no_append ⟨some ⟨some 1, "2024-06-01", "10:00", 7, "N/A", "N/A", "Alice",
      some "female"⟩, [⟨"user", "hi"⟩]⟩ _ rfl "hello" (by decide)
      (.raised "Error code: 429 - rate_limit_exceeded") _ (Or.inl rfl)).2.1 (by decide)⟩

/-- An appointment-data fixture with a given age and gender. -/
def apptFix (age : Int) (gender : Option String) : ApptData :=
  ⟨some 1, "2024-06-01", "10:00", age, "N/A", "N/A", "Alice", gender⟩

/-- An extraction-session fixture with a one-turn transcript. -/
def sessFix (age : Int) (gender : Option String) : ExtractSession :=
  ⟨some (apptFix age gender), [⟨"user", "hi"⟩]⟩

/-- C1: if the extraction completion call raises, or the returned payload is
not parseable as JSON, the appointment row is left unchanged and the caller
receives a 500 error response carrying the diagnostic message. -/
theorem claim_C1_extraction_atomic
    (sess : ExtractSession) (appt : ApptData) (hA : sess.appointment_data = some appt)
    (hId : truthyOptInt appt.id = true) (hH : sess.conversation_history ≠ [])
    (api : Except String String) (parse : String → Except String JValue)
    (growthApi : Except String String) (e : String)
    (hfail : api = .error e ∨ ∃ raw, api = .ok raw ∧ parse (pyStrip raw) = .error e) :
    (extract_diet sess api parse growthApi).dbWrite = none ∧
    (extract_diet sess api parse growthApi).response = .serverError e := by
  have hne : sess.conversation_history.isEmpty = false := by
    cases h : sess.conversation_history
    · exact absurd h hH
    · rfl
  unfold extract_diet
  rw [hA]
  dsimp only
  rw [hId, hne]
  rcases hfail with h | ⟨raw, h, hp⟩ <;> subst h
  · exact ⟨rfl, rfl⟩
  · simp only [hp]
    exact ⟨rfl, rfl⟩

/-- Closed witness for C1: a raised completion call writes nothing and
surfaces the error. -/
theorem claim_C1_extraction_atomic_witness :
    (extract_diet (sessFix 7 (some "female")) (.error "boom")
      (fun _ => .error "unused") (.ok "x")).dbWrite = none ∧
    (extract_diet (sessFix 7 (some "female")) (.error "boom")
      (fun _ => .error "unused") (.ok "x")).response = .serverError "boom" :=
  claim_C1_extraction_atomic _ _ rfl (by decide) (by decide) _ _ _ _ (Or.inl rfl)

/-- The invocation condition for the growth-metric derivation as the
specification words it: height and weight extracted (not the "N/A" sentinel)
and the session's age and gender present (`appointment_data` always carries
an `age_years` value, so presence of the age imposes nothing; the gender is
present when it is not `None`). -/
def growthSpecCondition (appt : ApptData) (fields : List (String × JValue)) : Prop :=
  jvEqStr (dictGet fields "height" (.jstr "N/A")) "N/A" = false ∧
  jvEqStr (dictGet fields "weight" (.jstr "N/A")) "N/A" = false ∧
  appt.gender ≠ none

/-- Counterexample to C4 as stated: for a patient whose computed age is 0
(an infant), with height and weight extracted and gender present, the
derivation call is nevertheless not made — `patient_age` is tested for
Python truthiness, and the integer 0 is falsy. -/
theorem claim_C4_counterexample :
    ¬ ((extract_diet (sessFix 0 (some "male")) (.ok "x")
        (fun _ => .ok (.jobj [("height", .jstr "150 cm"), ("weight", .jstr "45 kg")]))
        (.ok "BMI: 16")).growthCalled = true ↔
      growthSpecCondition (apptFix 0 (some "male"))
        [("height", .jstr "150 cm"), ("weight", .jstr "45 kg")]) := by
  intro h
  have hcond : growthSpecCondition (apptFix 0 (some "male"))
      [("height", .jstr "150 cm"), ("weight", .jstr "45 kg")] :=
    ⟨by decide, by decide, by simp [apptFix]⟩
  have hcall := h.mpr hcond
  exact absurd hcall (by decide)

/-- C4 (amended): the growth-metric derivation call is made if and only if
the extracted height and weight both differ from the "N/A" sentinel, the
session age is non-zero, and the session gender is a non-empty string (the
code tests Python truthiness of age and gender, so age 0 or an absent or
empty gender skips the call); whenever the call is not made, any persisted
row carries the "N/A" sentinel in `growth_percentile_info`. -/
theorem claim_C4_growth_condition
    (sess : ExtractSession) (appt : ApptData) (hA : sess.appointment_data = some appt)
    (hId : truthyOptInt appt.id = true) (hH : sess.conversation_history ≠ [])
    (raw : String) (parse : String → Except String JValue)
    (fields : List (String × JValue)) (growthApi : Except String String)
    (hparse : parse (pyStrip raw) = .ok (.jobj fields)) :
    ((extract_diet sess (.ok raw) parse growthApi).growthCalled = true ↔
      (jvEqStr (dictGet fields "height" (.jstr "N/A")) "N/A" = false ∧
       jvEqStr (dictGet fields "weight" (.jstr "N/A")) "N/A" = false ∧
       appt.age_years ≠ 0 ∧ truthyOptStr appt.gender = true)) ∧
    ((extract_diet sess (.ok raw) parse growthApi).growthCalled = false →
      ∀ row, (extract_diet sess (.ok raw) parse growthApi).dbWrite = some row →
        row.growth_percentile_info = .ctext "N/A") := by
  have hne : sess.conversation_history.isEmpty = false := by
    cases h : sess.conversation_history
    · exact absurd h hH
    · rfl
  have hg : (extract_diet sess (.ok raw) parse growthApi).growthCalled =
      (!(jvEqStr (dictGet fields "height" (.jstr "N/A")) "N/A") &&
       !(jvEqStr (dictGet fields "weight" (.jstr "N/A")) "N/A") &&
       truthyInt appt.age_years && truthyOptStr appt.gender) := by
    unfold extract_diet
    rw [hA]
    dsimp only
    rw [hId, hne]
    simp only [hparse, Bool.not_true, Bool.false_or, Bool.false_eq_true, if_false]
    split <;> rfl
  constructor
  · rw [hg]
    simp [truthyInt, and_assoc]
  · intro hcall row hrow
    rw [hg] at hcall
    unfold extract_diet at hrow
    rw [hA] at hrow
    dsimp only at hrow
    rw [hId, hne] at hrow
    simp only [hparse, Bool.not_true, Bool.false_or, Bool.false_eq_true, if_false] at hrow
    split at hrow
    · rename_i row2 heq
      cases hrow
      have hgrow := bindCells_growth_of_eq_some heq
      rw [hcall] at hgrow
      simpa using hgrow
    · exact Option.noConfusion hrow

/-- Closed witness for C4 (amended): for a 7-year-old with gender recorded
and height and weight extracted, the derivation call is made. -/
theorem claim_C4_growth_condition_witness :
    (extract_diet (sessFix 7 (some "female")) (.ok "x")
      (fun _ => .ok (.jobj [("height", .jstr "150 cm"), ("weight", .jstr "45 kg")]))
      (.ok "BMI: 16")).growthCalled = true :=
  (claim_C4_growth_condition _ _ rfl (by decide) (by decide) _ _ _ _ rfl).1.mpr
    ⟨by decide, by decide, by decide, by decide⟩

/-- The claim that a persisted update carries non-null strings in all twelve
category columns (six info, six recommendations), as the specification words
it. -/
def rowFieldsAreNonNullStrings (row : AppointmentUpdate) : Prop :=
  (∃ s, row.diet_info = .ctext s) ∧ (∃ s, row.toileting_info = .ctext s) ∧
  (∃ s, row.sleep_info = .ctext s) ∧ (∃ s, row.development_behavior_info = .ctext s) ∧
  (∃ s, row.social_info = .ctext s) ∧ (∃ s, row.extracted_concerns = .ctext s) ∧
  (∃ s, row.diet_recommendations = .ctext s) ∧ (∃ s, row.toileting_recommendations = .ctext s) ∧
  (∃ s, row.sleep_recommendations = .ctext s) ∧
  (∃ s, row.development_behavior_recommendations = .ctext s) ∧
  (∃ s, row.social_recommendations = .ctext s) ∧ (∃ s, row.concerns_recommendations = .ctext s)

/-- Counterexample to C5 as stated: a parseable payload may map a category
key to JSON `null`; `data.get("diet", "")` then returns `None`, which is
persisted as SQL NULL, so the successful extraction writes a row whose
`diet_info` column is not a non-null string. -/
theorem claim_C5_counterexample :
    (extract_diet (sessFix 7 (some "female")) (.ok "x")
      (fun _ => .ok (.jobj [("diet", .jnull)])) (.ok "unused")).response.isSuccess = true ∧
    ∃ row, (extract_diet (sessFix 7 (some "female")) (.ok "x")
      (fun _ => .ok (.jobj [("diet", .jnull)])) (.ok "unused")).dbWrite = some row ∧
      ¬ rowFieldsAreNonNullStrings row := by
  refine ⟨rfl, ⟨_, rfl, ?_⟩⟩
  intro hf
  obtain ⟨s, hs⟩ := hf.1
  exact Cell.noConfusion hs

/-- C5 (amended): for every successful extraction whose JSON payload parses
as an object in which every present category value is a string (absent keys
default to `""` for info and `"None"` for recommendations via `dict.get`, and
the height and weight values are bindable), the persisted row has all twelve
category columns as non-null strings equal to the extracted value or its
default. -/
theorem claim_C5_twelve_category_fields
    (sess : ExtractSession) (appt : ApptData) (hA : sess.appointment_data = some appt)
    (hId : truthyOptInt appt.id = true) (hH : sess.conversation_history ≠ [])
    (raw : String) (parse : String → Except String JValue)
    (fields : List (String × JValue)) (growthApi : Except String String)
    (hparse : parse (pyStrip raw) = .ok (.jobj fields))
    (hc wc : Cell)
    (hhc : pythonToCell (dictGet fields "height" (.jstr "N/A")) = some hc)
    (hwc : pythonToCell (dictGet fields "weight" (.jstr "N/A")) = some wc)
    (d1 d2 d3 d4 d5 d6 e1 e2 e3 e4 e5 e6 : String)
    (h1 : dictGet fields "diet" (.jstr "") = .jstr d1)
    (h2 : dictGet fields "toileting" (.jstr "") = .jstr d2)
    (h3 : dictGet fields "sleep" (.jstr "") = .jstr d3)
    (h4 : dictGet fields "development_behavior" (.jstr "") = .jstr d4)
    (h5 : dictGet fields "social" (.jstr "") = .jstr d5)
    (h6 : dictGet fields "concerns" (.jstr "") = .jstr d6)
    (g1 : dictGet fields "diet_recommendations" (.jstr "None") = .jstr e1)
    (g2 : dictGet fields "toileting_recommendations" (.jstr "None") = .jstr e2)
    (g3 : dictGet fields "sleep_recommendations" (.jstr "None") = .jstr e3)
    (g4 : dictGet fields "development_behavior_recommendations" (.jstr "None") = .jstr e4)
    (g5 : dictGet fields "social_recommendations" (.jstr "None") = .jstr e5)
    (g6 : dictGet fields "concerns_recommendations" (.jstr "None") = .jstr e6) :
    ∃ row, (extract_diet sess (.ok raw) parse growthApi).dbWrite = some row ∧
      (extract_diet sess (.ok raw) parse growthApi).response = .success (.jobj fields) ∧
      row.height = hc ∧ row.weight = wc ∧
      row.diet_info = .ctext d1 ∧ row.toileting_info = .ctext d2 ∧
      row.sleep_info = .ctext d3 ∧ row.development_behavior_info = .ctext d4 ∧
      row.social_info = .ctext d5 ∧ row.extracted_concerns = .ctext d6 ∧
      row.diet_recommendations = .ctext e1 ∧ row.toileting_recommendations = .ctext e2 ∧
      row.sleep_recommendations = .ctext e3 ∧
      row.development_behavior_recommendations = .ctext e4 ∧
      row.social_recommendations = .ctext e5 ∧ row.concerns_recommendations = .ctext e6 := by
  have hne : sess.conversation_history.isEmpty = false := by
    cases h : sess.conversation_history
    · exact absurd h hH
    · rfl
  unfold extract_diet
  rw [hA]
  dsimp only
  rw [hId, hne]
  simp only [hparse, Bool.not_true, Bool.false_or, Bool.false_eq_true, if_false]
  rw [h1, h2, h3, h4, h5, h6, g1, g2, g3, g4, g5, g6, hhc, hwc]
  simp only [bindCells, pythonToCell, Option.some_bind]
  exact ⟨_, rfl, trivial, rfl, rfl, rfl, rfl, rfl, rfl, rfl, rfl, rfl, rfl, rfl, rfl, rfl, rfl⟩

/-- Concrete payload fields for the C5 and C6 witnesses: height, weight, one
present info value and one present recommendation, the rest defaulted. -/
def witnessFields : List (String × JValue) :=
  [("height", .jstr "150 cm"), ("weight", .jstr "45 kg"),
   ("diet", .jstr "- eats fruit daily"), ("diet_recommendations", .jstr "- add vegetables")]

/-- Closed witness for C5 (amended) at a concrete payload. -/
theorem claim_C5_twelve_category_fields_witness :
    ∃ row, (extract_diet (sessFix 7 (some "female")) (.ok "x")
        (fun _ => .ok (.jobj witnessFields)) (.ok "BMI: 16")).dbWrite = some row ∧
      (extract_diet (sessFix 7 (some "female")) (.ok "x")
        (fun _ => .ok (.jobj witnessFields)) (.ok "BMI: 16")).response =
          .success (.jobj witnessFields) ∧
      row.height = .ctext "150 cm" ∧ row.weight = .ctext "45 kg" ∧
      row.diet_info = .ctext "- eats fruit daily" ∧ row.toileting_info = .ctext "" ∧
      row.sleep_info = .ctext "" ∧ row.development_behavior_info = .ctext "" ∧
      row.social_info = .ctext "" ∧ row.extracted_concerns = .ctext "" ∧
      row.diet_recommendations = .ctext "- add vegetables" ∧
      row.toileting_recommendations = .ctext "None" ∧
      row.sleep_recommendations = .ctext "None" ∧
      row.development_behavior_recommendations = .ctext "None" ∧
      row.social_recommendations = .ctext "None" ∧
      row.concerns_recommendations = .ctext "None" :=
  claim_C5_twelve_category_fields (sessFix 7 (some "female")) (apptFix 7 (some "female"))
    rfl (by decide) (by decide) "x" (fun _ => .ok (.jobj witnessFields)) witnessFields
    (.ok "BMI: 16") rfl (.ctext "150 cm") (.ctext "45 kg") (by decide) (by decide)
    "- eats fruit daily" "" "" "" "" "" "- add vegetables" "None" "None" "None" "None" "None"
    rfl rfl rfl rfl rfl rfl rfl rfl rfl rfl rfl rfl

/-- Counterexample to C6 as stated: if the growth-metric call is made and
raises, but the payload holds an unbindable value (a JSON array) in a
category, the extraction as a whole still fails — nothing is persisted and
the response is not a success — so a raising growth call does not by itself
guarantee a successful extraction. -/
theorem claim_C6_counterexample :
    (extract_diet (sessFix 7 (some "female")) (.ok "x")
      (fun _ => .ok (.jobj [("height", .jstr "120 cm"), ("weight", .jstr "25 kg"),
        ("diet", .jarr [])])) (.error "boom")).growthCalled = true ∧
    (extract_diet (sessFix 7 (some "female")) (.ok "x")
      (fun _ => .ok (.jobj [("height", .jstr "120 cm"), ("weight", .jstr "25 kg"),
        ("diet", .jarr [])])) (.error "boom")).response.isSuccess = false ∧
    (extract_diet (sessFix 7 (some "female")) (.ok "x")
      (fun _ => .ok (.jobj [("height", .jstr "120 cm"), ("weight", .jstr "25 kg"),
        ("diet", .jarr [])])) (.error "boom")).dbWrite = none :=
  ⟨rfl, rfl, rfl⟩

/-- C6 (amended): when the growth-metric derivation call is made and raises,
and the rest of the persistence succeeds (every category value is a string
and height and weight are bindable), the growth column is set to the "N/A"
sentinel while all other extracted fields are persisted and the caller
receives the success response; the growth failure alone never fails the
extraction. -/
theorem claim_C6_growth_best_effort
    (sess : ExtractSession) (appt : ApptData) (hA : sess.appointment_data = some appt)
    (hId : truthyOptInt appt.id = true) (hH : sess.conversation_history ≠ [])
    (raw : String) (parse : String → Except String JValue)
    (fields : List (String × JValue)) (e : String)
    (hparse : parse (pyStrip raw) = .ok (.jobj fields))
    (_hcall : (extract_diet sess (.ok raw) parse (.error e)).growthCalled = true)
    (hc wc : Cell)
    (hhc : pythonToCell (dictGet fields "height" (.jstr "N/A")) = some hc)
    (hwc : pythonToCell (dictGet fields "weight" (.jstr "N/A")) = some wc)
    (d1 d2 d3 d4 d5 d6 e1 e2 e3 e4 e5 e6 : String)
    (h1 : dictGet fields "diet" (.jstr "") = .jstr d1)
    (h2 : dictGet fields "toileting" (.jstr "") = .jstr d2)
    (h3 : dictGet fields "sleep" (.jstr "") = .jstr d3)
    (h4 : dictGet fields "development_behavior" (.jstr "") = .jstr d4)
    (h5 : dictGet fields "social" (.jstr "") = .jstr d5)
    (h6 : dictGet fields "concerns" (.jstr "") = .jstr d6)
    (g1 : dictGet fields "diet_recommendations" (.jstr "None") = .jstr e1)
    (g2 : dictGet fields "toileting_recommendations" (.jstr "None") = .jstr e2)
    (g3 : dictGet fields "sleep_recommendations" (.jstr "None") = .jstr e3)
    (g4 : dictGet fields "development_behavior_recommendations" (.jstr "None") = .jstr e4)
    (g5 : dictGet fields "social_recommendations" (.jstr "None") = .jstr e5)
    (g6 : dictGet fields "concerns_recommendations" (.jstr "None") = .jstr e6) :
    ∃ row, (extract_diet sess (.ok raw) parse (.error e)).dbWrite = some row ∧
      row.growth_percentile_info = .ctext "N/A" ∧
      (extract_diet sess (.ok raw) parse (.error e)).response = .success (.jobj fields) ∧
      row.diet_info = .ctext d1 ∧ row.toileting_info = .ctext d2 ∧
      row.sleep_info = .ctext d3 ∧ row.development_behavior_info = .ctext d4 ∧
      row.social_info = .ctext d5 ∧ row.extracted_concerns = .ctext d6 := by
  have hne : sess.conversation_history.isEmpty = false := by
    cases h : sess.conversation_history
    · exact absurd h hH
    · rfl
  unfold extract_diet
  rw [hA]
  dsimp only
  rw [hId, hne]
  simp only [hparse, Bool.not_true, Bool.false_or, Bool.false_eq_true, if_false, ite_self]
  rw [h1, h2, h3, h4, h5, h6, g1, g2, g3, g4, g5, g6, hhc, hwc]
  simp only [bindCells, pythonToCell, Option.some_bind]
  exact ⟨_, rfl, rfl, trivial, rfl, rfl, rfl, rfl, rfl, rfl⟩

/-- Closed witness for C6 (amended): a raising growth call with an otherwise
clean payload persists the record with the "N/A" growth sentinel. -/
theorem claim_C6_growth_best_effort_witness :
    ∃ row, (extract_diet (sessFix 7 (some "female")) (.ok "x")
        (fun _ => .ok (.jobj witnessFields)) (.error "boom")).dbWrite = some row ∧
      row.growth_percentile_info = .ctext "N/A" ∧
      (extract_diet (sessFix 7 (some "female")) (.ok "x")
        (fun _ => .ok (.jobj witnessFields)) (.error "boom")).response =
          .success (.jobj witnessFields) ∧
      row.diet_info = .ctext "- eats fruit daily" ∧ row.toileting_info = .ctext "" ∧
      row.sleep_info = .ctext "" ∧ row.development_behavior_info = .ctext "" ∧
      row.social_info = .ctext "" ∧ row.extracted_concerns = .ctext "" :=
  claim_C6_growth_best_effort (sessFix 7 (some "female")) (apptFix 7 (some "female"))
    rfl (by decide) (by decide) "x" (fun _ => .ok (.jobj witnessFields)) witnessFields
    "boom" rfl (by decide) (.ctext "150 cm") (.ctext "45 kg") (by decide) (by decide)
    "- eats fruit daily" "" "" "" "" "" "- add vegetables" "None" "None" "None" "None" "None"
    rfl rfl rfl rfl rfl rfl rfl rfl rfl rfl rfl rfl

/-- Every signup request either re-renders the form with an error message and
inserts nothing, or inserts a row and redirects to the main page. -/
theorem signup_shape (existing : List String) (form : SignupForm)
    (parseDate : String → Option PyDate) (today : PyDate) :
    (∃ m, signup existing form parseDate today = ⟨none, .renderError m⟩) ∨
    (∃ row, signup existing form parseDate today = ⟨some row, .redirectMain⟩) := by
  unfold signup
  dsimp only
  split
  · exact Or.inl ⟨_, rfl⟩
  split
  · exact Or.inl ⟨_, rfl⟩
  split
  · exact Or.inl ⟨_, rfl⟩
  split
  · exact Or.inl ⟨_, rfl⟩
  split
  · exact Or.inl ⟨_, rfl⟩
  split
  · exact Or.inl ⟨_, rfl⟩
  split
  · exact Or.inl ⟨_, rfl⟩
  exact Or.inr ⟨_, rfl⟩

/-- Reduction of `signup` once the required-field, gender and date-parse
validations pass: what remains is the age check, the role-specific checks,
the duplicate-username check and the insert. -/
theorem signup_valid_unfold
    (existing : List String) (form : SignupForm)
    (parseDate : String → Option PyDate) (today dob : PyDate)
    (hfn : truthyStr (pyStrip form.first_name) = true)
    (hln : truthyStr (pyStrip form.last_name) = true)
    (hu : truthyOptStr form.username = true)
    (hpw : truthyOptStr form.password = true)
    (hro : truthyOptStr form.role = true)
    (hdob : truthyStr (pyStrip form.date_of_birth) = true)
    (hgen : pyStrip form.gender = "male" ∨ pyStrip form.gender = "female")
    (hd : parseDate (pyStrip form.date_of_birth) = some dob) :
    signup existing form parseDate today =
      (if computeAge dob today < 0 then
        ⟨none, .renderError "Date of birth cannot be in the future"⟩
      else if form.role == some "patient" && computeAge dob today > 18 then
        ⟨none, .renderError pediatricOnlyMessage⟩
      else if form.role == some "admin" && !(truthyStr (pyStrip form.admin_group)) then
        ⟨none, .renderError "Please enter the name of the group you are admining"⟩
      else if existing.any (fun u => lowerStr u == lowerStr (form.username.getD "")) then
        ⟨none, .renderError "Username already exists. Please choose a different username."⟩
      else
        ⟨some ⟨form.username.getD "", form.role.getD "",
          if form.role == some "admin" then some (pyStrip form.admin_group) else none,
          if form.role == some "patient" then some (pyStrip form.patient_group) else none,
          pyStrip (pyStrip form.first_name ++ " " ++ pyStrip form.last_name),
          pyStrip form.date_of_birth, pyStrip form.gender⟩, .redirectMain⟩) := by
  have hgt : truthyStr (pyStrip form.gender) = true := by
    rcases hgen with h | h <;> rw [h] <;> decide
  have hgneg : ¬(pyStrip form.gender ≠ "male" ∧ pyStrip form.gender ≠ "female") := by
    rcases hgen with h | h <;> simp [h]
  unfold signup
  dsimp only
  rw [hfn, hln, hu, hpw, hro, hdob, hgt]
  simp only [Bool.not_true, Bool.false_or, Bool.or_self, Bool.false_eq_true, if_false]
  rw [if_neg hgneg, hd]

/-- C7: with all other fields valid (required fields present, a valid gender,
a parseable date of birth giving a non-negative age, a free username), a
patient whose computed age is 19 is rejected with the pediatric-only message
and no row is inserted; a patient of age 18 is accepted; an admin is accepted
if and only if the stripped admin-group name is non-empty; and every rejected
signup inserts no user row and re-renders the form with a specific error
message. -/
theorem claim_C7_signup_validation
    (existing : List String) (form : SignupForm)
    (parseDate : String → Option PyDate) (today dob : PyDate)
    (hfn : truthyStr (pyStrip form.first_name) = true)
    (hln : truthyStr (pyStrip form.last_name) = true)
    (hu : truthyOptStr form.username = true)
    (hpw : truthyOptStr form.password = true)
    (hdob : truthyStr (pyStrip form.date_of_birth) = true)
    (hgen : pyStrip form.gender = "male" ∨ pyStrip form.gender = "female")
    (hd : parseDate (pyStrip form.date_of_birth) = some dob)
    (hage : 0 ≤ computeAge dob today)
    (hfree : existing.any (fun u => lowerStr u == lowerStr (form.username.getD "")) = false) :
    (form.role = some "patient" → computeAge dob today = 19 →
      signup existing form parseDate today = ⟨none, .renderError pediatricOnlyMessage⟩) ∧
    (form.role = some "patient" → computeAge dob today = 18 →
      ∃ row, (signup existing form parseDate today).inserted = some row) ∧
    (form.role = some "admin" →
      ((∃ row, (signup existing form parseDate today).inserted = some row) ↔
        pyStrip form.admin_group ≠ "")) ∧
    (∀ e2 f2 p2 t2, (signup e2 f2 p2 t2).inserted = none →
      ∃ m, (signup e2 f2 p2 t2).response = .renderError m) := by
  refine ⟨?_, ?_, ?_, ?_⟩
  · intro hrole h19
    have hro : truthyOptStr form.role = true := by rw [hrole]; decide
    rw [signup_valid_unfold existing form parseDate today dob hfn hln hu hpw hro hdob hgen hd,
      hrole, h19]
    rfl
  · intro hrole h18
    have hro : truthyOptStr form.role = true := by rw [hrole]; decide
    rw [signup_valid_unfold existing form parseDate today dob hfn hln hu hpw hro hdob hgen hd,
      hrole, h18, hfree]
    exact ⟨_, rfl⟩
  · intro hrole
    have hro : truthyOptStr form.role = true := by rw [hrole]; decide
    rw [signup_valid_unfold existing form parseDate today dob hfn hln hu hpw hro hdob hgen hd,
      hrole, if_neg (not_lt.mpr hage), hfree]
    constructor
    · rintro ⟨row, hrow⟩ hempty
      simp [hempty, truthyStr] at hrow
    · intro hne
      have hagt : truthyStr (pyStrip form.admin_group) = true := by
        simp [truthyStr, hne]
      rw [hagt]
      exact ⟨_, rfl⟩
  · intro e2 f2 p2 t2 hnone
    rcases signup_shape e2 f2 p2 t2 with ⟨m, hm⟩ | ⟨row, hrow⟩
    · exact ⟨m, by rw [hm]⟩
    · rw [hrow] at hnone
      exact absurd hnone (by simp)

/-- A concrete valid patient signup form used by the C7 and C10 witnesses. -/
def formFix : SignupForm :=
  ⟨"Alice", "Smith", some "alice", some "pw1", some "patient", "", "Group1",
    "2006-01-01", "female"⟩

/-- Closed witness for C7: a patient aged exactly 18 on the request date is
accepted and a row is inserted. -/
theorem claim_C7_signup_validation_witness :
    ∃ row, (signup [] formFix (fun _ => some ⟨2006, 1, 1⟩) ⟨2024, 6, 1⟩).inserted = some row :=
  (claim_C7_signup_validation [] formFix (fun _ => some ⟨2006, 1, 1⟩) ⟨2024, 6, 1⟩
    ⟨2006, 1, 1⟩ (by decide) (by decide) (by decide) (by decide) (by decide)
    (Or.inr (by decide)) rfl (by decide) rfl).2.1 rfl (by decide)

/-- C10: every user row inserted by signup has `admin_group` non-null only
when the role is "admin" and `patient_group` non-null only when the role is
"patient": a submitted admin-group value is stored as NULL for any non-admin
role and a submitted patient-group value is stored as NULL for any
non-patient role. -/
theorem claim_C10_group_role_invariant
    (existing : List String) (form : SignupForm)
    (parseDate : String → Option PyDate) (today : PyDate) (row : UserRow)
    (h : (signup existing form parseDate today).inserted = some row) :
    (row.admin_group ≠ none → row.role = "admin") ∧
    (row.patient_group ≠ none → row.role = "patient") ∧
    (row.role ≠ "admin" → row.admin_group = none) ∧
    (row.role ≠ "patient" → row.patient_group = none) := by
  unfold signup at h
  dsimp only at h
  split at h
  · exact absurd h (by simp)
  split at h
  · exact absurd h (by simp)
  split at h
  · exact absurd h (by simp)
  split at h
  · exact absurd h (by simp)
  split at h
  · exact absurd h (by simp)
  split at h
  · exact absurd h (by simp)
  split at h
  · exact absurd h (by simp)
  simp only [Option.some.injEq] at h
  subst h
  rcases hro : form.role with _ | r
  · simp [hro]
  · by_cases hr : r = "admin"
    · subst hr
      simp [hro]
    · by_cases hp : r = "patient"
      · subst hp
        simp [hro]
      · simp [hro, hr, hp]

/-- The row inserted by the C7 witness signup. -/
def insertedRowFix : UserRow :=
  ⟨"alice", "patient", none, some "Group1", "Alice Smith", "2006-01-01", "female"⟩

/-- Closed witness for C10 at the concrete patient signup: the stored
admin-group is NULL and the stored patient-group is non-null only because the
role is "patient". -/
theorem claim_C10_group_role_invariant_witness :
    (insertedRowFix.admin_group ≠ none → insertedRowFix.role = "admin") ∧
    (insertedRowFix.patient_group ≠ none → insertedRowFix.role = "patient") ∧
    (insertedRowFix.role ≠ "admin" → insertedRowFix.admin_group = none) ∧
    (insertedRowFix.role ≠ "patient" → insertedRowFix.patient_group = none) :=
  claim_C10_group_role_invariant [] formFix (fun _ => some ⟨2006, 1, 1⟩) ⟨2024, 6, 1⟩
    insertedRowFix (by decide)

/-- C9 as the specification words it, for a request with an explicit user id
`x`: the target's appointments are shown only to a logged-in admin whose
admin-group matches the target's patient-group, and in every other case the
request is redirected with an access-denied message and no report page is
rendered. -/
def reportsSpecClaim (users : List DbUser) (sess : SessionAuth) (x : Int) : Prop :=
  ((∃ b, reports_page users sess (some x) = .showReports x b) →
    (sess.role = some "admin" ∧
      ∃ t, users.find? (fun u => u.id == x) = some t ∧ t.patient_group = sess.admin_group)) ∧
  (¬ (sess.role = some "admin" ∧
      ∃ t, users.find? (fun u => u.id == x) = some t ∧ t.patient_group = sess.admin_group) →
    ((reports_page users sess (some x)).isAccessDenied = true ∧
      ∀ uid b, reports_page users sess (some x) ≠ .showReports uid b))

/-- Counterexample to C9 as stated: a logged-in patient requesting
`/reports/0` is not redirected — `if view_user_id:` treats the explicit id 0
as falsy, so the handler renders the requester's own reports page instead of
denying access. -/
theorem claim_C9_counterexample :
    ¬ reportsSpecClaim [] ⟨some 5, some "patient", none⟩ 0 := by
  intro hcl
  have h2 := hcl.2 (by rintro ⟨hadm, -⟩; simp at hadm)
  exact h2.2 5 false rfl

/-- C9 (amended): for every request with an explicit non-zero user id, the
target's appointments are shown if and only if the requester is logged in
with role "admin" and the target user exists with a patient-group equal to
the requester's admin-group; otherwise the request is redirected with an
access-denied message and no report page is rendered.  A request without an
explicit user id (or with the falsy id 0) shows the requester's own
appointments.  (The claim as stated fails only at the explicit id 0, which
Python truthiness routes to the own-reports branch.) -/
theorem claim_C9_reports_access
    (users : List DbUser) (sess : SessionAuth) (x : Int) (hx : x ≠ 0)
    (cur : Int) (hlog : sess.user_id = some cur) :
    ((reports_page users sess (some x) = .showReports x true) ↔
      (sess.role = some "admin" ∧
        ∃ t, users.find? (fun u => u.id == x) = some t ∧
          t.patient_group = sess.admin_group)) ∧
    (¬ (sess.role = some "admin" ∧
        ∃ t, users.find? (fun u => u.id == x) = some t ∧
          t.patient_group = sess.admin_group) →
      ((reports_page users sess (some x)).isAccessDenied = true ∧
        ∀ uid b, reports_page users sess (some x) ≠ .showReports uid b)) ∧
    (reports_page users sess none = .showReports cur false) := by
  have hxv : truthyOptInt (some x) = true := by
    simp [truthyOptInt, hx]
  have hmain : reports_page users sess (some x) =
      (if sess.role ≠ some "admin" then
        .redirectReports "Access denied. Admin access required."
      else
        match users.find? (fun u => u.id == x) with
        | none => .redirectPeople "Access denied. User not in your admin group."
        | some target =>
          if target.patient_group ≠ sess.admin_group then
            .redirectPeople "Access denied. User not in your admin group."
          else
            .showReports x true) := by
    unfold reports_page
    rw [hlog]
    dsimp only
    rw [hxv]
    rfl
  refine ⟨?_, ?_, ?_⟩
  · rw [hmain]
    by_cases hrole : sess.role = some "admin"
    · rw [if_neg (by simp [hrole])]
      cases hf : users.find? (fun u => u.id == x) with
      | none =>
        dsimp only
        constructor
        · intro h
          exact absurd h (by simp)
        · rintro ⟨-, t, ht, -⟩
          exact Option.noConfusion ht
      | some t =>
        dsimp only
        by_cases hpg : t.patient_group = sess.admin_group
        · rw [if_neg (by simp [hpg])]
          exact ⟨fun _ => ⟨hrole, t, rfl, hpg⟩, fun _ => rfl⟩
        · rw [if_pos hpg]
          constructor
          · intro h
            exact absurd h (by simp)
          · rintro ⟨-, t2, ht2, hpg2⟩
            injection ht2 with ht3
            subst ht3
            exact absurd hpg2 hpg
    · rw [if_pos hrole]
      constructor
      · intro h
        exact absurd h (by simp)
      · rintro ⟨hadm, -⟩
        exact absurd hadm hrole
  · intro hdeny
    rw [hmain]
    by_cases hrole : sess.role = some "admin"
    · rw [if_neg (by simp [hrole])]
      cases hf : users.find? (fun u => u.id == x) with
      | none =>
        dsimp only
        exact ⟨rfl, fun uid b h => ReportsResponse.noConfusion h⟩
      | some t =>
        dsimp only
        by_cases hpg : t.patient_group = sess.admin_group
        · exact absurd ⟨hrole, t, hf, hpg⟩ hdeny
        · rw [if_pos hpg]
          exact ⟨rfl, fun uid b h => ReportsResponse.noConfusion h⟩
    · rw [if_pos hrole]
      exact ⟨rfl, fun uid b h => ReportsResponse.noConfusion h⟩
  · unfold reports_page
    rw [hlog]
    rfl

/-- Closed witness for C9 (amended): an admin of group "G" viewing a patient
of group "G" with non-zero id 7 is shown that patient's reports. -/
theorem claim_C9_reports_access_witness :
    reports_page [⟨7, some "G"⟩] ⟨some 3, some "admin", some "G"⟩ (some 7) =
      .showReports 7 true :=
  (claim_C9_reports_access [⟨7, some "G"⟩] ⟨some 3, some "admin", some "G"⟩ 7
    (by decide) 3 rfl).1.mpr ⟨rfl, ⟨7, some "G"⟩, rfl, rfl⟩

end PedsApp
